import Mathlib

set_option autoImplicit false

/-!
Verification of the pilot discovery server core (ADS stream loop, EDS cluster
index, push coordinator) and of the v1alpha3 / v1 config generators, as a
shallow embedding of the Go sources.

Conventions used throughout:
* Go maps are embedded as association lists (`List (String × _)`);
* Go `time.Time` is embedded as a `Nat` number of seconds with `0` playing the
  role of the zero `time.Time`; protobuf durations are `Nat` nanoseconds;
* channels and goroutines are factored out: each handler is embedded as a pure
  function of the state it reads together with the outcome of the one
  suspension point it contains (send success, select arm taken, ...).
-/

/-! The ADS server (package v2): connection state, request dispatch, EDS index,
push handling, broadcast accounting. -/

/-- The four xDS resource types multiplexed over an ADS stream. -/
inductive XdsType
  | CDS | RDS | EDS | LDS
deriving DecidableEq, Repr

/-- Modelled from the spec: the recognized type URL for Cluster resources
(the constant `ClusterType`, declared outside src). -/
def ClusterType : String := "type.googleapis.com/envoy.api.v2.Cluster"

/-- Modelled from the spec: the recognized type URL for Listener resources. -/
def ListenerType : String := "type.googleapis.com/envoy.api.v2.Listener"

/-- Modelled from the spec: the recognized type URL for RouteConfiguration resources. -/
def RouteType : String := "type.googleapis.com/envoy.api.v2.RouteConfiguration"

/-- Modelled from the spec: the recognized type URL for endpoint (ClusterLoadAssignment) resources. -/
def EndpointType : String := "type.googleapis.com/envoy.api.v2.ClusterLoadAssignment"

/-- Per-stream connection state: the watch-state fields of `XdsConnection`.
The diagnostic fields (`PeerAddr`, `Connect`, last-sent payloads) and the two
channels are not part of the watch-state machine and are omitted. -/
structure XdsConnection where
  ConID : String
  Clusters : List String
  Routes : List String
  LDSWatch : Bool
  CDSWatch : Bool
  added : Bool
deriving DecidableEq, Repr

/-- An inbound DiscoveryRequest, restricted to the fields the server consumes. -/
structure DiscoveryRequest where
  nodeId : String
  typeUrl : String
  resourceNames : List String
  errorDetail : Option String
deriving DecidableEq, Repr

/-- The EDS cluster index (`edsClusters`): cluster name to the connection ids of
the connections watching it, embedded as an association list. -/
abbrev EdsIndex := List (String × List String)

/-- Lookup of a cluster's set of watching connection ids in the EDS index
(empty when the cluster has no entry). -/
def edsLookup (idx : EdsIndex) (cluster : String) : List String :=
  match idx with
  | [] => []
  | (c, cs) :: rest => if c = cluster then cs else edsLookup rest cluster

/-- Modelled from the spec: `addEdsCon` (declared outside src) inserts the
connection id into the index entry of the given cluster, creating the entry
when absent. -/
def addEdsCon (cluster : String) (conID : String) (idx : EdsIndex) : EdsIndex :=
  match idx with
  | [] => [(cluster, [conID])]
  | (c, cs) :: rest =>
    if c = cluster then (c, if conID ∈ cs then cs else conID :: cs) :: rest
    else (c, cs) :: addEdsCon cluster conID rest

/-- Modelled from the spec: `removeEdsCon` (declared outside src) removes the
connection id from the index entry of the given cluster. -/
def removeEdsCon (cluster : String) (conID : String) (idx : EdsIndex) : EdsIndex :=
  match idx with
  | [] => []
  | (c, cs) :: rest =>
    if c = cluster then (c, cs.filter (fun x => x != conID)) :: removeEdsCon cluster conID rest
    else (c, cs) :: removeEdsCon cluster conID rest

/-- The EndpointType case of the request switch in `StreamAggregatedResources`
(lines 346-370): equal length (or an empty request) with a nonempty stored list
is an ACK (`continue`); otherwise the watch list is replaced and every cluster
of the new list is added to the EDS index, followed by one EDS push. Returns
the updated connection, the updated index and the number of pushes sent.
Dropped clusters are not removed from the index by this code path. -/
def handleEds (names : List String) (con : XdsConnection) (idx : EdsIndex) :
    XdsConnection × EdsIndex × Nat :=
  if (names.length = con.Clusters.length ∨ names.length = 0) ∧ 0 < con.Clusters.length then
    (con, idx, 0)
  else
    ({ con with Clusters := names },
     names.foldl (fun i c => addEdsCon c con.ConID i) idx, 1)

/-- The RouteType case of the request switch (lines 326-344): same ACK test as
EDS, on the `Routes` list; no secondary index is involved. Returns the updated
connection and the number of RDS pushes sent. -/
def handleRds (names : List String) (con : XdsConnection) : XdsConnection × Nat :=
  if (names.length = con.Routes.length ∨ names.length = 0) ∧ 0 < con.Routes.length then
    (con, 0)
  else ({ con with Routes := names }, 1)

/-- The EDS-index part of `removeCon` (lines 506-522): at teardown the
connection is removed from the index entry of every cluster currently in its
watch list (and of those only). -/
def removeConEds (con : XdsConnection) (idx : EdsIndex) : EdsIndex :=
  con.Clusters.foldl (fun i c => removeEdsCon c con.ConID i) idx

/-- The `type_url` switch of the stream loop (lines 291-374). `none` means the
request was consumed as an ACK (a `continue` that skips the registration block);
`some` carries the updated connection, updated EDS index and the list of pushes
sent, and falls through to the registration block. The default branch only logs
and still falls through. Response sends are modelled as succeeding. -/
def dispatch (req : DiscoveryRequest) (con : XdsConnection) (idx : EdsIndex) :
    Option (XdsConnection × EdsIndex × List XdsType) :=
  if req.typeUrl = ClusterType then
    if con.CDSWatch then none
    else some ({ con with CDSWatch := true }, idx, [XdsType.CDS])
  else if req.typeUrl = ListenerType then
    if con.LDSWatch then none
    else some ({ con with LDSWatch := true }, idx, [XdsType.LDS])
  else if req.typeUrl = RouteType then
    let r := handleRds req.resourceNames con
    if r.2 = 0 then none else some (r.1, idx, [XdsType.RDS])
  else if req.typeUrl = EndpointType then
    let r := handleEds req.resourceNames con idx
    if r.2.2 = 0 then none else some (r.1, r.2.1, [XdsType.EDS])
  else
    some (con, idx, [])

/-- The client registry (`adsClients`), reduced to the set of registered
connection ids. -/
abbrev Registry := List String

/-- One inbound request step after node-id handling: the dispatch switch
followed by the registration block (lines 376-380). Any request that falls
through the switch - whatever its `type_url` - registers a not-yet-added
connection via `addCon`. Returns connection, EDS index, registry, pushes sent. -/
def processRequest (req : DiscoveryRequest) (con : XdsConnection) (idx : EdsIndex)
    (reg : Registry) : XdsConnection × EdsIndex × Registry × List XdsType :=
  match dispatch req con idx with
  | none => (con, idx, reg, [])
  | some (con', idx', sent) =>
    if con'.added then (con', idx', reg, sent)
    else ({ con' with added := true }, idx', con'.ConID :: reg, sent)

/-- The resource types pushed by the push-channel case of the stream loop
(lines 381-408), in source order: CDS if `CDSWatch`, RDS if `Routes` is
nonempty, EDS if `Clusters` is nonempty, LDS if `LDSWatch`. -/
def watchedTypes (con : XdsConnection) : List XdsType :=
  (if con.CDSWatch then [XdsType.CDS] else []) ++
  (if 0 < con.Routes.length then [XdsType.RDS] else []) ++
  (if 0 < con.Clusters.length then [XdsType.EDS] else []) ++
  (if con.LDSWatch then [XdsType.LDS] else [])

/-- Sequential sends with early return: each push function sends one
DiscoveryResponse of its type; the first send error makes the stream loop
return. Yields the attempted sends in order and whether the loop returned with
an error. -/
def sendAll (ok : XdsType → Bool) : List XdsType → List XdsType × Bool
  | [] => ([], false)
  | t :: ts =>
    if ok t then
      let r := sendAll ok ts
      (t :: r.1, r.2)
    else ([t], true)

/-- The push-channel case of the stream loop (lines 381-408): one push per
currently watched resource type in the order CDS, RDS, EDS, LDS, stopping at
the first send failure, which terminates the stream. `pushRoute` (in src) sends
exactly one response; `pushCds`, `pushEds`, `pushLds` are modelled from the
spec as sending one response each (they are declared outside src). -/
def handlePushEvent (con : XdsConnection) (ok : XdsType → Bool) : List XdsType × Bool :=
  sendAll ok (watchedTypes con)

/-- The outcome of the 3-way select in the `adsPushAll` broadcast loop
(lines 466-487): the push-channel send succeeded, the connection's done
channel fired, or the `PushTimeout` timer fired. -/
inductive PushOutcome
  | success | done | timeout
deriving DecidableEq, Repr

/-- The push-related counters touched by `adsPushAll`: `pilot_xds_push_timeout`
and `pilot_xds_push_errors` with labels short and long. -/
structure PushStats where
  pushTimeouts : Nat
  shortErrors : Nat
  longErrors : Nat
deriving DecidableEq, Repr

/-- The per-connection timestamps read and written by `adsPushAll`. Times are
seconds; `0` is the zero `time.Time` (`timeZero`), so `LastPushFailure = 0`
embeds `LastPushFailure.IsZero()`. -/
structure ConnTimes where
  LastPush : Nat
  LastPushFailure : Nat
deriving DecidableEq, Repr

/-- One iteration of the `adsPushAll` connection loop (lines 458-489), as a
function of the select outcome. `time.Since(t) > 10*time.Second` is embedded
as `10 < now - t`. -/
def pushStep (now : Nat) (outcome : PushOutcome) (c : ConnTimes) (st : PushStats) :
    ConnTimes × PushStats :=
  match outcome with
  | .success => ({ c with LastPush := now, LastPushFailure := 0 }, st)
  | .done => (c, st)
  | .timeout =>
    let st' := { st with pushTimeouts := st.pushTimeouts + 1 }
    if c.LastPushFailure = 0 then
      ({ c with LastPushFailure := now },
       { st' with shortErrors := st'.shortErrors + 1 })
    else if 10 < now - c.LastPushFailure then
      (c, { st' with longErrors := st'.longErrors + 1 })
    else
      (c, st')

/-- The `adsPushAll` fan-out over the snapshot of connections: the loop visits
every connection and no select outcome aborts it. -/
def adsPushAllLoop (now : Nat) (outcome : ConnTimes → PushOutcome) :
    List ConnTimes → PushStats → List ConnTimes × PushStats
  | [], st => ([], st)
  | c :: cs, st =>
    let r := pushStep now (outcome c) c st
    let rest := adsPushAllLoop now outcome cs r.2
    (r.1 :: rest.1, rest.2)

/-- The three proxy node types accepted in a node id. -/
inductive NodeType
  | sidecar | ingress | router
deriving DecidableEq, Repr

/-- Modelled from the spec: the parsed proxy identity (`model.Proxy`; the model
package is not under src), fields type, ip, id, domain. -/
structure Proxy where
  nodeType : NodeType
  IPAddress : String
  ID : String
  Domain : String
deriving DecidableEq, Repr

/-- Splitting a character list on the tilde separator. -/
def splitTildeChars : List Char → List (List Char)
  | [] => [[]]
  | c :: rest =>
    let r := splitTildeChars rest
    if c = '~' then [] :: r
    else
      match r with
      | [] => [[c]]
      | g :: gs => (c :: g) :: gs

/-- Splitting a string on the tilde separator (own structural implementation,
so that concrete runs reduce in the kernel). -/
def splitTilde (s : String) : List String :=
  (splitTildeChars s.data).map (fun cs => String.mk cs)

/-- Parsing of the node-type field of a node id. -/
def parseNodeType (s : String) : Option NodeType :=
  if s = "sidecar" then some .sidecar
  else if s = "ingress" then some .ingress
  else if s = "router" then some .router
  else none

/-- Modelled from the spec: `model.ParseServiceNode` (the model package is not
under src) parses a node id of the form type~ip~id~domain, four tilde-separated
fields with type in {sidecar, ingress, router}, and fails on anything else. -/
def parseServiceNode (s : String) : Option Proxy :=
  match splitTilde s with
  | [t, ip, id, domain] =>
    match parseNodeType t with
    | some nt => some { nodeType := nt, IPAddress := ip, ID := id, Domain := domain }
    | none => none
  | _ => none

/-- What the stream loop does with an inbound request's node id
(lines 276-289): an empty id is logged and the request skipped (`continue`); a
nonempty id that fails to parse terminates the stream (`return err`); a parsed
id is assigned to the connection and dispatch proceeds. -/
inductive NodeIdAction
  | skip
  | terminate
  | dispatchWith (p : Proxy)
deriving DecidableEq, Repr

/-- Node-id handling at the top of the request case of the stream loop. -/
def handleNodeId (nodeId : String) : NodeIdAction :=
  if nodeId = "" then .skip
  else
    match parseServiceNode nodeId with
    | none => .terminate
    | some p => .dispatchWith p

/-! The v1alpha3 config generator (pilot/pkg/networking/core/v1alpha3):
cluster building. TLS contexts, outlier detection and circuit-breaker
thresholds are not embedded: they only populate fields outside this model and
never feed back into the fields below. Plugin chains are empty. -/

/-- The service discovery resolutions (model.Resolution). -/
inductive Resolution
  | ClientSideLB | DNSLB | Passthrough
deriving DecidableEq, Repr

/-- Modelled from the spec: `model.Protocol` together with the classification
helpers the generators use (the model package is not under src): IsHTTP covers
HTTP, HTTP2 and GRPC; IsTCP covers TCP, HTTPS, Mongo and Redis; IsHTTP2 covers
HTTP2 and GRPC. -/
inductive Protocol
  | HTTP | HTTP2 | GRPC | TCP | HTTPS | Mongo | Redis | UDP
deriving DecidableEq, Repr, Fintype

/-- Whether the protocol is an HTTP2-based protocol. -/
def Protocol.IsHTTP2 : Protocol → Bool
  | .HTTP2 | .GRPC => true
  | _ => false

/-- Whether the protocol is HTTP-based. -/
def Protocol.IsHTTP : Protocol → Bool
  | .HTTP | .HTTP2 | .GRPC => true
  | _ => false

/-- Whether the protocol is TCP-based. -/
def Protocol.IsTCP : Protocol → Bool
  | .TCP | .HTTPS | .Mongo | .Redis => true
  | _ => false

/-- A service port (model.Port): name, number, protocol. -/
structure Port where
  Name : String
  port : Nat
  protocol : Protocol
deriving DecidableEq, Repr

/-- An abstract service (model.Service), restricted to the fields the
generators read. -/
structure Service where
  Hostname : String
  Address : String
  Ports : List Port
  resolution : Resolution
  MeshExternal : Bool
deriving DecidableEq, Repr

/-- A network endpoint of a service instance. -/
structure NetworkEndpoint where
  Address : String
  port : Nat
  ServicePort : Port
deriving DecidableEq, Repr

/-- A service instance colocated with or backing a service; labels are not
embedded (every call in the embedded paths passes nil labels). -/
structure ServiceInstance where
  Endpoint : NetworkEndpoint
  service : Service
deriving DecidableEq, Repr

/-- TCP connection-pool settings, restricted to the connect timeout
(nanoseconds; `none` embeds a nil duration). -/
structure TCPSettings where
  ConnectTimeout : Option Nat
deriving DecidableEq, Repr

/-- Connection-pool settings; the HTTP settings only populate circuit-breaker
thresholds and `MaxRequestsPerConnection`, none of which are embedded. -/
structure ConnectionPoolSettings where
  Tcp : Option TCPSettings
deriving DecidableEq, Repr

/-- The simple load-balancer policies (networking.LoadBalancerSettings_SimpleLB). -/
inductive SimpleLB
  | LeastConn | Random | RoundRobin | Passthrough
deriving DecidableEq, Repr

/-- Load-balancer settings restricted to the simple policy (`GetSimple`). -/
structure LoadBalancerSettings where
  Simple : SimpleLB
deriving DecidableEq, Repr

/-- A port selector in per-port traffic-policy overrides. -/
inductive PortSelector
  | byName (n : String)
  | byNumber (n : Nat)
deriving DecidableEq, Repr

/-- Per-port traffic-policy override (networking.TrafficPolicy_PortTrafficPolicy),
restricted to the embedded fields. -/
structure PortTrafficPolicy where
  portSel : Option PortSelector
  ConnectionPool : Option ConnectionPoolSettings
  LoadBalancer : Option LoadBalancerSettings
deriving DecidableEq, Repr

/-- A traffic policy (networking.TrafficPolicy); outlier detection and TLS
settings are not embedded. -/
structure TrafficPolicy where
  ConnectionPool : Option ConnectionPoolSettings
  LoadBalancer : Option LoadBalancerSettings
  PortLevelSettings : List PortTrafficPolicy
deriving DecidableEq, Repr

/-- A subset of a destination rule. -/
structure Subset where
  Name : String
  trafficPolicy : Option TrafficPolicy
deriving DecidableEq, Repr

/-- A destination rule for a host. -/
structure DestinationRule where
  trafficPolicy : Option TrafficPolicy
  Subsets : List Subset
deriving DecidableEq, Repr

/-- Envoy v2 cluster discovery types (v2.Cluster_DiscoveryType). -/
inductive DiscoveryType
  | Static | StrictDNS | LogicalDNS | EDS | OriginalDST
deriving DecidableEq, Repr

/-- Envoy v2 cluster load-balancing policies (v2.Cluster_LbPolicy), restricted
to the ones the generator assigns. -/
inductive ClusterLbPolicy
  | RoundRobin | LeastRequest | Random | OriginalDstLb
deriving DecidableEq, Repr

/-- A network address (util.BuildAddress output): ip and port. -/
structure Address where
  ip : String
  port : Nat
deriving DecidableEq, Repr

/-- An Envoy v2 Cluster, restricted to the fields the embedded generator paths
write: name, discovery type (`ctype` embeds the Type field), connect timeout
(nanoseconds, 0 = unset, the Go zero value), hosts, the EDS config service
name, the DNS lookup family flag, the lb policy and the HTTP2-options flag. -/
structure Cluster where
  Name : String
  ctype : DiscoveryType
  ConnectTimeout : Nat
  Hosts : List Address
  EdsServiceName : Option String
  DnsLookupFamilyV4Only : Bool
  LbPolicy : ClusterLbPolicy
  Http2 : Bool
deriving DecidableEq, Repr

/-- The mesh-wide configuration fields read by the embedded generators:
default connect timeout (nanoseconds) and the two proxy ports. -/
structure MeshConfig where
  ConnectTimeout : Nat
  ProxyListenPort : Int
  ProxyHttpPort : Int
deriving DecidableEq, Repr

/-- The environment facade: mesh config, the service list, destination rules
by hostname, all service instances (for `InstancesByPort`), the proxy's own
instances (`GetProxyServiceInstances`) and its management ports
(`ManagementPorts`), the last two specialized to the one proxy under
consideration. -/
structure Environment where
  Mesh : MeshConfig
  services : List Service
  destinationRules : List (String × DestinationRule)
  instances : List ServiceInstance
  proxyInstances : List ServiceInstance
  managementPorts : List Port
deriving Repr

/-- The destination-rule lookup `env.DestinationRule(hostname)`. -/
def Environment.DestinationRule (env : Environment) (hostname : String) :
    Option DestinationRule :=
  match env.destinationRules.find? (fun p => p.1 == hostname) with
  | some p => some p.2
  | none => none

/-- The instance query `env.InstancesByPort(hostname, port, nil)`. -/
def Environment.InstancesByPort (env : Environment) (hostname : String) (port : Nat) :
    List ServiceInstance :=
  env.instances.filter
    (fun i => i.service.Hostname == hostname && i.Endpoint.ServicePort.port == port)

/-- Modelled from the spec: `model.BuildSubsetKey` (the model package is not
under src) produces the canonical cluster-name encoding
direction|port|subset|host. Length truncation applies only past a bound none
of the names built here reaches, and is not modelled. -/
def BuildSubsetKey (direction : String) (subsetName : String) (hostname : String)
    (port : Nat) : String :=
  direction ++ "|" ++ toString port ++ "|" ++ subsetName ++ "|" ++ hostname

/-- The hardcoded 5s fallback `defaultClusterConnectTimeout`, in nanoseconds. -/
def defaultClusterConnectTimeout : Nat := 5000000000

/-- The `applyConnectionPool` path that writes embedded fields: a present TCP
connect timeout overwrites the cluster's connect timeout (cluster.go 328-336). -/
def applyConnectionPool (cluster : Cluster) (settings : Option ConnectionPoolSettings) :
    Cluster :=
  match settings with
  | none => cluster
  | some s =>
    match s.Tcp with
    | none => cluster
    | some tcp =>
      match tcp.ConnectTimeout with
      | none => cluster
      | some d => { cluster with ConnectTimeout := d }

/-- The `applyLoadBalancer` switch (cluster.go 365-383): the simple policy maps
onto the cluster lb policy; PASSTHROUGH additionally forces the original-dst
discovery type. -/
def applyLoadBalancer (cluster : Cluster) (lb : Option LoadBalancerSettings) : Cluster :=
  match lb with
  | none => cluster
  | some l =>
    match l.Simple with
    | .LeastConn => { cluster with LbPolicy := .LeastRequest }
    | .Random => { cluster with LbPolicy := .Random }
    | .RoundRobin => { cluster with LbPolicy := .RoundRobin }
    | .Passthrough => { cluster with LbPolicy := .OriginalDstLb, ctype := .OriginalDST }

/-- Whether a per-port override selects the given port (the foundPort switch in
`applyTrafficPolicy`, cluster.go 272-284). -/
def portSelectorMatches (port : Port) (sel : Option PortSelector) : Bool :=
  match sel with
  | none => false
  | some (.byName n) => port.Name == n
  | some (.byNumber n) => port.port == n

/-- The first per-port override matching the port, if any. -/
def findPortPolicy (port : Port) (l : List PortTrafficPolicy) : Option PortTrafficPolicy :=
  l.find? (fun p => portSelectorMatches port p.portSel)

/-- The `applyTrafficPolicy` entry point (cluster.go 261-298), restricted to
the embedded fields: a matching per-port override replaces the top-level
connection pool and load balancer, then both are applied (outlier detection and
TLS, also applied there, are outside the model). -/
def applyTrafficPolicy (cluster : Cluster) (policy : Option TrafficPolicy)
    (port : Option Port) : Cluster :=
  match policy with
  | none => cluster
  | some pol =>
    let sel :=
      match port with
      | some pt =>
        if 0 < pol.PortLevelSettings.length then
          match findPortPolicy pt pol.PortLevelSettings with
          | some p => (p.ConnectionPool, p.LoadBalancer)
          | none => (pol.ConnectionPool, pol.LoadBalancer)
        else (pol.ConnectionPool, pol.LoadBalancer)
      | none => (pol.ConnectionPool, pol.LoadBalancer)
    applyLoadBalancer (applyConnectionPool cluster sel.1) sel.2

/-- The default traffic policy (cluster.go 505-525): round-robin (passthrough
for original-dst clusters) and the mesh connect timeout as the TCP connect
timeout. -/
def buildDefaultTrafficPolicy (env : Environment) (discoveryType : DiscoveryType) :
    TrafficPolicy :=
  { LoadBalancer := some
      { Simple := if discoveryType = .OriginalDST then .Passthrough else .RoundRobin },
    ConnectionPool := some { Tcp := some { ConnectTimeout := some env.Mesh.ConnectTimeout } },
    PortLevelSettings := [] }

/-- The `buildDefaultCluster` constructor (cluster.go 488-503): name, type and
hosts; V4-only DNS lookup for the DNS types; then the default traffic policy is
applied with a nil port. -/
def buildDefaultCluster (env : Environment) (name : String)
    (discoveryType : DiscoveryType) (hosts : List Address) : Cluster :=
  let cluster : Cluster :=
    { Name := name, ctype := discoveryType, ConnectTimeout := 0, Hosts := hosts,
      EdsServiceName := none,
      DnsLookupFamilyV4Only :=
        discoveryType == DiscoveryType.StrictDNS || discoveryType == DiscoveryType.LogicalDNS,
      LbPolicy := .RoundRobin, Http2 := false }
  applyTrafficPolicy cluster (some (buildDefaultTrafficPolicy env discoveryType)) none

/-- The `convertResolution` mapping (cluster.go 213-224); the Go default case
also yields EDS and our resolution type is exhaustive. -/
def convertResolution (resolution : Resolution) : DiscoveryType :=
  match resolution with
  | .ClientSideLB => .EDS
  | .DNSLB => .StrictDNS
  | .Passthrough => .OriginalDST

/-- The `updateEds` hook (cluster.go 136-148): only EDS clusters get an EDS
cluster config, whose service name is the cluster name (the `serviceName`
argument of the source is unused there and dropped here). -/
def updateEds (cluster : Cluster) : Cluster :=
  if cluster.ctype ≠ .EDS then cluster
  else { cluster with EdsServiceName := some cluster.Name }

/-- The `setUpstreamProtocol` hook (cluster.go 465-474): HTTP2-based ports set
the HTTP2 protocol options. -/
def setUpstreamProtocol (cluster : Cluster) (port : Port) : Cluster :=
  if port.protocol.IsHTTP2 then { cluster with Http2 := true } else cluster

/-- The `buildClusterHosts` helper (cluster.go 150-168): only DNSLB services
get hosts, one address per instance on the port. -/
def buildClusterHosts (env : Environment) (service : Service) (port : Nat) :
    List Address :=
  if service.resolution ≠ .DNSLB then []
  else
    (env.InstancesByPort service.Hostname port).map
      (fun i => { ip := i.Endpoint.Address, port := i.Endpoint.port })

/-- The body of the `buildOutboundClusters` double loop for one service port
(cluster.go 87-130): the default cluster, then one cluster per subset of the
matching destination rule; Go mutates the clusters through pointers after
appending them, so every mutation is folded in before the pure list is built.
`convertIstioMutual` and the mesh mutual-TLS branch only rewrite TLS settings
and are outside the model; the plugin chain is empty. -/
def buildOutboundClustersForPort (env : Environment) (service : Service) (port : Port) :
    List Cluster :=
  let hosts := buildClusterHosts env service port.port
  let clusterName := BuildSubsetKey "outbound" "" service.Hostname port.port
  let defaultCluster := buildDefaultCluster env clusterName
    (convertResolution service.resolution) hosts
  let defaultCluster := setUpstreamProtocol (updateEds defaultCluster) port
  match env.DestinationRule service.Hostname with
  | some rule =>
    let defaultCluster := applyTrafficPolicy defaultCluster rule.trafficPolicy (some port)
    defaultCluster :: rule.Subsets.map (fun subset =>
      let subsetName := BuildSubsetKey "outbound" subset.Name service.Hostname port.port
      let c := buildDefaultCluster env subsetName (convertResolution service.resolution) hosts
      let c := setUpstreamProtocol (updateEds c) port
      let c := applyTrafficPolicy c rule.trafficPolicy (some port)
      applyTrafficPolicy c subset.trafficPolicy (some port))
  | none => [defaultCluster]

/-- The `buildOutboundClusters` loop over all services and ports (cluster.go 84-134). -/
def buildOutboundClusters (env : Environment) : List Cluster :=
  env.services.flatMap (fun s => s.Ports.flatMap (fun p => buildOutboundClustersForPort env s p))

/-- The `buildInboundClusters` loop (cluster.go 170-211): one static loopback
cluster per local instance - with the destination rule's connection pool
applied when present - plus one static loopback cluster per management port. -/
def buildInboundClusters (env : Environment) (instances : List ServiceInstance)
    (managementPorts : List Port) : List Cluster :=
  instances.map (fun inst =>
    let clusterName := BuildSubsetKey "inbound" "" inst.service.Hostname
      inst.Endpoint.ServicePort.port
    let localCluster := buildDefaultCluster env clusterName .Static
      [{ ip := "::1", port := inst.Endpoint.port }]
    let localCluster := setUpstreamProtocol localCluster inst.Endpoint.ServicePort
    match env.DestinationRule inst.service.Hostname with
    | some rule =>
      match rule.trafficPolicy with
      | some tp => applyConnectionPool localCluster tp.ConnectionPool
      | none => localCluster
    | none => localCluster)
  ++ managementPorts.map (fun port =>
    let clusterName := BuildSubsetKey "inbound" "" "mgmtCluster" port.port
    let c := buildDefaultCluster env clusterName .Static [{ ip := "::1", port := port.port }]
    setUpstreamProtocol c port)

/-- The blackhole cluster (cluster.go 478-486): static, round robin, with the
hardcoded 5s connect timeout. -/
def buildBlackHoleCluster : Cluster :=
  { Name := "BlackHoleCluster", ctype := .Static,
    ConnectTimeout := defaultClusterConnectTimeout, Hosts := [],
    EdsServiceName := none, DnsLookupFamilyV4Only := false,
    LbPolicy := .RoundRobin, Http2 := false }

/-- The `BuildClusters` entry point (cluster.go 50-82). Note the placement in
the source: the zero-connect-timeout fixup loop runs right after the outbound
clusters are built, before the inbound and management clusters (sidecar only)
and the blackhole cluster are appended. Environment errors are not modelled
(the environment here is total). -/
def BuildClusters (env : Environment) (proxy : Proxy) : List Cluster :=
  let clusters := buildOutboundClusters env
  let clusters := clusters.map (fun c =>
    if c.ConnectTimeout = 0 then { c with ConnectTimeout := defaultClusterConnectTimeout }
    else c)
  let clusters :=
    if proxy.nodeType = .sidecar then
      clusters ++ buildInboundClusters env env.proxyInstances env.managementPorts
    else clusters
  clusters ++ [buildBlackHoleCluster]

/-! The v1 route helpers (pilot/pkg/proxy/envoy/v1): the outbound cluster
builder and the joinIPPort helper. -/

/-- The `fmt.Sprint("%d", port)` call in `joinIPPort`: `fmt.Sprint` adds a
space only between two adjacent operands of which neither is a string, so with
a leading string operand the operands are concatenated and the directive is
never interpreted. -/
def goSprintStrNat (s : String) (n : Nat) : String := s ++ toString n

/-- The `net.JoinHostPort` function: host:port, bracketing the host when it
contains a colon. -/
def netJoinHostPort (host : String) (port : String) : String :=
  if host.data.contains ':' then "[" ++ host ++ "]:" ++ port
  else host ++ ":" ++ port

/-- The `joinIPPort` helper (package v1 fragment in src). -/
def joinIPPort (ip : String) (port : Nat) : String :=
  netJoinHostPort ip (goSprintStrNat "%d" port)

/-- Modelled from the spec: `model.Service.Key(port, labels)` (the model
package is not under src) joins the hostname with the port name; labels are nil
at every embedded call and are not modelled. -/
def serviceKey (hostname : String) (port : Port) : String :=
  if port.Name = "" then hostname else hostname ++ "|" ++ port.Name

/-- Modelled from the spec: v1 cluster names past a length bound are truncated
with a hash suffix; no name built in this development reaches the bound, below
which the name passes through unchanged, so the suffix is not modelled. -/
def TruncateClusterName (name : String) : String :=
  if name.length ≤ 189 then name else name.take 189

/-- An Envoy v1 cluster (the v1 Cluster struct), restricted to the fields
`BuildOutboundCluster` writes; the v1 type constants are the strings sds,
strict_dns, static, original_dst. -/
structure V1Cluster where
  Name : String
  ServiceName : String
  ctype : String
  Hosts : List String
  Hostname : String
  outbound : Bool
  Http2 : Bool
deriving DecidableEq, Repr

/-- The `BuildOutboundCluster` builder (route.go 110-141): sds type - or
strict-dns with a tcp://host:port host for an external service - and HTTP2
features for GRPC/HTTP2 ports. The labels argument is nil at every embedded
call and is dropped. -/
def BuildOutboundCluster (hostname : String) (port : Port) (isExternal : Bool) :
    V1Cluster :=
  let key := serviceKey hostname port
  let name := TruncateClusterName ("out." ++ key)
  let clusterType := if isExternal then "strict_dns" else "sds"
  let hosts := if isExternal then ["tcp://" ++ joinIPPort hostname port.port] else []
  { Name := name, ServiceName := key, ctype := clusterType, Hosts := hosts,
    Hostname := hostname, outbound := !isExternal,
    Http2 := port.protocol == Protocol.GRPC || port.protocol == Protocol.HTTP2 }

/-! The v1alpha3 listener generator (the buildSidecarListeners family).
Filters are embedded as reference strings: an HTTP chain carries the HTTP
connection manager, a TCP chain carries a tcp proxy filter tagged with its
target cluster. Plugin chains are empty, under which `marshalFilters` always
succeeds (each chain carries either network filters or HTTP options, never
both), and listener validation passes. -/

/-- A listener filter chain: SNI match domains and the filters attached by
`marshalFilters`, as reference strings. -/
structure FilterChain where
  sniHosts : List String
  filters : List String
deriving DecidableEq, Repr

/-- An Envoy v2 listener restricted to the embedded fields; the name is the
`ip_port` string `buildListener` produces. -/
structure Listener where
  Name : String
  ip : String
  port : Nat
  FilterChains : List FilterChain
deriving DecidableEq, Repr

/-- Lookup in a Go map embedded as an association list. -/
def alistLookup {α : Type} (l : List (String × α)) (k : String) : Option α :=
  match l.find? (fun p => p.1 == k) with
  | some p => some p.2
  | none => none

/-- Insertion into a Go map embedded as an association list: replace the
binding when the key is present, append it otherwise. -/
def alistInsert {α : Type} (l : List (String × α)) (k : String) (v : α) :
    List (String × α) :=
  match l with
  | [] => [(k, v)]
  | (k', v') :: rest =>
    if k' == k then (k, v) :: rest else (k', v') :: alistInsert rest k v

/-- The listener classes of the plugin package. -/
inductive ListenerClass
  | http | tcp | unknown
deriving DecidableEq, Repr

/-- Modelled from the spec: `plugin.ModelProtocolToListenerType` (the plugin
package is not under src) classifies HTTP, HTTP2 and GRPC as HTTP listeners,
TCP, HTTPS, Mongo and Redis as TCP listeners, everything else as unknown. -/
def modelProtocolToListenerType (p : Protocol) : ListenerClass :=
  match p with
  | .HTTP | .HTTP2 | .GRPC => .http
  | .TCP | .HTTPS | .Mongo | .Redis => .tcp
  | .UDP => .unknown

/-- The outbound HTTP listener for a wildcard service port after
`marshalFilters`: one chain holding the HTTP connection manager. -/
def outboundHttpListener (listenAddress : String) (port : Port) : Listener :=
  { Name := listenAddress ++ "_" ++ toString port.port, ip := listenAddress,
    port := port.port,
    FilterChains := [{ sniHosts := [], filters := ["http_connection_manager"] }] }

/-- Modelled from the spec: the TCP filter chain for an outbound service port -
`buildOutboundNetworkFilters` (not under src) emits a tcp proxy filter routing
to the cluster; external HTTPS services additionally get their hostname as the
SNI match (part_001 lines 407-416). -/
def outboundTcpChains (service : Service) (port : Port) (clusterName : String) :
    List FilterChain :=
  [{ sniHosts :=
       if port.protocol == Protocol.HTTPS && service.MeshExternal then [service.Hostname]
       else [],
     filters := ["tcp_proxy:" ++ clusterName] }]

/-- The outbound TCP listener for a service port after `marshalFilters`. -/
def outboundTcpListener (listenAddress : String) (port : Port) (service : Service)
    (clusterName : String) : Listener :=
  { Name := listenAddress ++ "_" ++ toString port.port, ip := listenAddress,
    port := port.port, FilterChains := outboundTcpChains service port clusterName }

/-- The state threaded through the `buildSidecarOutboundListeners` loop:
the listener map and listener type map keyed by `address:port`, and the
`pilot_conf_out_listeners` gauge. -/
structure OutboundState where
  listenerMap : List (String × Listener)
  listenerTypeMap : List (String × Protocol)
  conflictCount : Nat
deriving Repr

/-- One iteration of the `buildSidecarOutboundListeners` double loop
(part_001 lines 337-475) for a service port. HTTP ports key on the wildcard
address; an existing entry is always skipped and counts a conflict exactly when
the entry's protocol is not HTTP. TCP ports key on the service address (the
wildcard for passthrough services); an existing entry counts a conflict and is
skipped unless it is the external-HTTPS SNI case, which merges the new filter
chains into the existing listener. `service.GetServiceAddressForProxy` is
modelled from the spec as the service address. -/
def outboundListenerStep (st : OutboundState) (service : Service) (port : Port) :
    OutboundState :=
  let clusterName := BuildSubsetKey "outbound" "" service.Hostname port.port
  match modelProtocolToListenerType port.protocol with
  | .http =>
    let key := "::0" ++ ":" ++ toString port.port
    match alistLookup st.listenerMap key with
    | some _ =>
      let isHttp :=
        match alistLookup st.listenerTypeMap key with
        | some pr => pr.IsHTTP
        | none => false
      if !isHttp then { st with conflictCount := st.conflictCount + 1 } else st
    | none =>
      { st with
        listenerMap := alistInsert st.listenerMap key (outboundHttpListener "::0" port),
        listenerTypeMap := alistInsert st.listenerTypeMap key port.protocol }
  | .tcp =>
    let listenAddress := if service.resolution ≠ .Passthrough then service.Address else "::0"
    let key := listenAddress ++ ":" ++ toString port.port
    match alistLookup st.listenerMap key with
    | some cur =>
      let isTcp :=
        match alistLookup st.listenerTypeMap key with
        | some pr => pr.IsTCP
        | none => false
      if !isTcp || port.protocol != Protocol.HTTPS || !service.MeshExternal then
        { st with conflictCount := st.conflictCount + 1 }
      else
        let merged := { cur with
          FilterChains := cur.FilterChains ++ outboundTcpChains service port clusterName }
        { st with listenerMap := alistInsert st.listenerMap key merged }
    | none =>
      { st with
        listenerMap := alistInsert st.listenerMap key
          (outboundTcpListener listenAddress port service clusterName),
        listenerTypeMap := alistInsert st.listenerTypeMap key port.protocol }
  | .unknown => st

/-- The `buildSidecarOutboundListeners` loop over all services and ports,
started from the empty maps and a zero conflict gauge. -/
def buildSidecarOutboundListeners (services : List Service) : OutboundState :=
  services.foldl (fun st s => s.Ports.foldl (fun st2 p => outboundListenerStep st2 s p) st)
    { listenerMap := [], listenerTypeMap := [], conflictCount := 0 }

/-- The final partition of the outbound listener map (part_001 lines 478-492):
TCP listeners then HTTP listeners; a key missing from the type map lands in the
HTTP bucket (the Go zero protocol is not TCP). Validation is modelled as
passing; the Go map iteration order is unspecified and the association-list
insertion order stands in for it. -/
def outboundFinal (st : OutboundState) : List Listener :=
  (st.listenerMap.filter (fun p =>
    match alistLookup st.listenerTypeMap p.1 with
    | some pr => pr.IsTCP
    | none => false)).map Prod.snd ++
  (st.listenerMap.filter (fun p =>
    match alistLookup st.listenerTypeMap p.1 with
    | some pr => !pr.IsTCP
    | none => true)).map Prod.snd

/-- The state of the `buildSidecarInboundListeners` loop: emitted listeners and
the dedup map keyed on `endpointAddress:port`. -/
structure InboundState where
  listeners : List Listener
  listenerMap : List (String × Listener)
deriving Repr

/-- One iteration of `buildSidecarInboundListeners` (part_001 lines 239-312):
the first binding of an endpoint address wins, later collisions are skipped;
HTTP endpoints get an HTTP connection manager chain, TCP endpoints a tcp proxy
chain routing to the inbound cluster (`buildInboundNetworkFilters` is modelled
from the spec), unknown protocols are skipped. -/
def inboundListenerStep (st : InboundState) (inst : ServiceInstance) : InboundState :=
  let key := inst.Endpoint.Address ++ ":" ++ toString inst.Endpoint.port
  match alistLookup st.listenerMap key with
  | some _ => st
  | none =>
    match modelProtocolToListenerType inst.Endpoint.ServicePort.protocol with
    | .http =>
      let l : Listener :=
        { Name := inst.Endpoint.Address ++ "_" ++ toString inst.Endpoint.port,
          ip := inst.Endpoint.Address, port := inst.Endpoint.port,
          FilterChains := [{ sniHosts := [], filters := ["http_connection_manager"] }] }
      { listeners := st.listeners ++ [l], listenerMap := alistInsert st.listenerMap key l }
    | .tcp =>
      let target := BuildSubsetKey "inbound" "" inst.service.Hostname
        inst.Endpoint.ServicePort.port
      let l : Listener :=
        { Name := inst.Endpoint.Address ++ "_" ++ toString inst.Endpoint.port,
          ip := inst.Endpoint.Address, port := inst.Endpoint.port,
          FilterChains := [{ sniHosts := [], filters := ["tcp_proxy:" ++ target] }] }
      { listeners := st.listeners ++ [l], listenerMap := alistInsert st.listenerMap key l }
    | .unknown => st

/-- The `buildSidecarInboundListeners` loop over the proxy's instances. -/
def buildSidecarInboundListeners (instances : List ServiceInstance) : List Listener :=
  (instances.foldl inboundListenerStep { listeners := [], listenerMap := [] }).listeners

/-- The protocol whitelist of `buildMgmtPortListeners` (part_001 lines 518-520). -/
def mgmtProtocolAllowed (p : Protocol) : Bool :=
  match p with
  | .HTTP | .HTTP2 | .GRPC | .TCP | .HTTPS | .Mongo | .Redis => true
  | .UDP => false

/-- The `buildMgmtPortListeners` loop (part_001 lines 508-554): one inbound TCP
listener per management port on the management ip (loopback when empty),
unsupported protocols skipped. -/
def buildMgmtPortListeners (managementPorts : List Port) (managementIP : String) :
    List Listener :=
  let mip := if managementIP = "" then "::1" else managementIP
  managementPorts.foldl (fun acc mPort =>
    if mgmtProtocolAllowed mPort.protocol then
      let chain : FilterChain :=
        { sniHosts := [],
          filters := ["tcp_proxy:" ++ BuildSubsetKey "inbound" "" "mgmtCluster" mPort.port] }
      let l : Listener :=
        { Name := mip ++ "_" ++ toString mPort.port, ip := mip, port := mPort.port,
          FilterChains := [chain] }
      acc ++ [l]
    else acc) []

/-- The `util.GetByAddress` collision probe used before appending a management
listener: the first listener bound to the same address, if any. -/
def getByAddress (listeners : List Listener) (ip : String) (port : Nat) :
    Option Listener :=
  listeners.find? (fun l => l.ip == ip && l.port == port)

/-- The virtual traffic-capture listener (part_001 lines 162-178): bound to the
wildcard address on the mesh intercept port, with the dummy blackhole tcp proxy
chain (the `use_original_dst` and transparent flags carry no further data flow
here). -/
def virtualListener (mesh : MeshConfig) : Listener :=
  { Name := "virtual", ip := "::0", port := mesh.ProxyListenPort.toNat,
    FilterChains := [{ sniHosts := [], filters := ["tcp_proxy:BlackHoleCluster"] }] }

/-- The HTTP proxy listener (part_001 lines 182-223): loopback for sidecars,
wildcard for routers, on the mesh HTTP proxy port, with an HTTP connection
manager chain. -/
def buildHttpProxyListener (mesh : MeshConfig) (node : Proxy) : Listener :=
  let listenAddress := if node.nodeType = .router then "::0" else "::1"
  { Name := listenAddress ++ "_" ++ toString mesh.ProxyHttpPort.toNat,
    ip := listenAddress, port := mesh.ProxyHttpPort.toNat,
    FilterChains := [{ sniHosts := [], filters := ["http_connection_manager"] }] }

/-- The service ordering applied before generation (part_001 line 124). -/
def sortServices (services : List Service) : List Service :=
  services.mergeSort (fun a b => decide (a.Hostname ≤ b.Hostname))

/-- The `buildSidecarListeners` entry point (part_001 lines 108-228): inbound,
outbound, non-colliding management listeners and the virtual listener - all of
them only when the mesh intercept port is positive - followed by the HTTP proxy
listener when the HTTP proxy port is positive. The management collision probe
runs against the listeners accumulated so far. -/
def buildSidecarListeners (env : Environment) (node : Proxy) : List Listener :=
  let listeners : List Listener :=
    if 0 < env.Mesh.ProxyListenPort then
      let inbound := buildSidecarInboundListeners env.proxyInstances
      let outbound := outboundFinal (buildSidecarOutboundListeners (sortServices env.services))
      let base := inbound ++ outbound
      let withMgmt := (buildMgmtPortListeners env.managementPorts node.IPAddress).foldl
        (fun acc m => if (getByAddress acc m.ip m.port).isSome then acc else acc ++ [m]) base
      withMgmt ++ [virtualListener env.Mesh]
    else []
  listeners ++ (if 0 < env.Mesh.ProxyHttpPort then [buildHttpProxyListener env.Mesh node] else [])

/-! Concrete scenarios used to instantiate the claims. -/

/-- A freshly accepted connection (newXdsConnection) with its id assigned. -/
def freshCon (id : String) : XdsConnection :=
  { ConID := id, Clusters := [], Routes := [], LDSWatch := false, CDSWatch := false,
    added := false }

/-- The HTTP service port of the seed scenarios. -/
def s1Port : Port := { Name := "http", port := 80, protocol := .HTTP }

/-- The seed service a.ns with one HTTP port and client-side load balancing. -/
def s1Service : Service :=
  { Hostname := "a.ns", Address := "10.0.0.1", Ports := [s1Port],
    resolution := .ClientSideLB, MeshExternal := false }

/-- A destination rule for a.ns whose TCP connect timeout is explicitly zero. -/
def c6Rule : DestinationRule :=
  { trafficPolicy := some
      { ConnectionPool := some { Tcp := some { ConnectTimeout := some 0 } },
        LoadBalancer := none, PortLevelSettings := [] },
    Subsets := [] }

/-- The proxy's local instance of a.ns. -/
def s1Instance : ServiceInstance :=
  { Endpoint := { Address := "10.1.1.1", port := 8080, ServicePort := s1Port },
    service := s1Service }

/-- The environment of the C6 run: positive mesh connect timeout (1s), the
a.ns service, its zero-connect-timeout destination rule, and the proxy's local
instance. -/
def c6Env : Environment :=
  { Mesh := { ConnectTimeout := 1000000000, ProxyListenPort := 15001, ProxyHttpPort := 0 },
    services := [s1Service], destinationRules := [("a.ns", c6Rule)],
    instances := [s1Instance], proxyInstances := [s1Instance], managementPorts := [] }

/-- The sidecar proxy of the concrete runs. -/
def sidecarProxy : Proxy :=
  { nodeType := .sidecar, IPAddress := "10.1.1.1", ID := "app.ns",
    Domain := "ns.svc.cluster.local" }

/-- An environment with an empty registry, for runs that only read the mesh
config. -/
def emptyEnv : Environment :=
  { Mesh := { ConnectTimeout := 1000000000, ProxyListenPort := 15001, ProxyHttpPort := 0 },
    services := [], destinationRules := [], instances := [], proxyInstances := [],
    managementPorts := [] }

/-- A single-port service for the listener-conflict runs. -/
def c8Service (hostname : String) (protocol : Protocol) (resolution : Resolution) :
    Service :=
  { Hostname := hostname, Address := "10.0.0.2",
    Ports := [{ Name := "p", port := 80, protocol := protocol }],
    resolution := resolution, MeshExternal := false }

/-- The environment of the C10 witness: intercept port disabled, HTTP proxy
port enabled, with services, instances and management ports that would produce
listeners were the intercept port positive. -/
def c10Env : Environment :=
  { Mesh := { ConnectTimeout := 1000000000, ProxyListenPort := 0, ProxyHttpPort := 15002 },
    services := [s1Service], destinationRules := [], instances := [s1Instance],
    proxyInstances := [s1Instance],
    managementPorts := [{ Name := "m", port := 9090, protocol := .HTTP }] }

/-- The direction of the EDS symmetry invariant the code maintains: every
cluster in a connection's watch list has the connection in its index entry. -/
def edsInvariant (con : XdsConnection) (idx : EdsIndex) : Prop :=
  ∀ c ∈ con.Clusters, con.ConID ∈ edsLookup idx c

instance edsInvariantDecidable (con : XdsConnection) (idx : EdsIndex) :
    Decidable (edsInvariant con idx) :=
  inferInstanceAs (Decidable (∀ c ∈ con.Clusters, con.ConID ∈ edsLookup idx c))

/-- A connection that watches every resource type: CDS, LDS, one route config
and one EDS cluster. -/
def c3Con : XdsConnection :=
  { ConID := "con1", Clusters := ["outbound|80||a.ns"], Routes := ["80"],
    LDSWatch := true, CDSWatch := true, added := true }

/-- The always-succeeding send environment. -/
def allOk : XdsType → Bool := fun _ => true

/-- A first request with an unrecognized type URL. -/
def c9Req : DiscoveryRequest :=
  { nodeId := "sidecar~10.0.0.5~app~cluster.local", typeUrl := "foo/bar",
    resourceNames := [], errorDetail := none }

/-! Theorems. -/

/-- Adding a connection to a cluster's entry makes it a member of that entry. -/
theorem edsLookup_addEdsCon_self (cluster conID : String) (idx : EdsIndex) :
    conID ∈ edsLookup (addEdsCon cluster conID idx) cluster := by
  induction idx with
  | nil => simp [addEdsCon, edsLookup]
  | cons hd tl ih =>
    obtain ⟨k, cs⟩ := hd
    by_cases hk : k = cluster
    · subst hk
      by_cases hm : conID ∈ cs <;> simp [addEdsCon, edsLookup, hm]
    · simp [addEdsCon, edsLookup, hk, ih]

/-- Adding never removes anybody from any entry. -/
theorem edsLookup_addEdsCon_mono (cluster conID c x : String) (idx : EdsIndex)
    (hx : x ∈ edsLookup idx c) : x ∈ edsLookup (addEdsCon cluster conID idx) c := by
  induction idx with
  | nil => simp [edsLookup] at hx
  | cons hd tl ih =>
    obtain ⟨k, cs⟩ := hd
    by_cases hk : k = cluster
    · subst hk
      by_cases hc : k = c
      · subst hc
        by_cases hm : conID ∈ cs <;> simp_all [addEdsCon, edsLookup]
      · by_cases hm : conID ∈ cs <;> simp_all [addEdsCon, edsLookup]
    · by_cases hc : k = c <;> simp_all [addEdsCon, edsLookup]

/-- Memberships survive a fold of additions. -/
theorem foldl_addEdsCon_mono (conID : String) (l : List String) (idx : EdsIndex)
    (c x : String) (hx : x ∈ edsLookup idx c) :
    x ∈ edsLookup (l.foldl (fun i cl => addEdsCon cl conID i) idx) c := by
  induction l generalizing idx with
  | nil => exact hx
  | cons a tl ih => exact ih _ (edsLookup_addEdsCon_mono a conID c x idx hx)

/-- After folding additions over a list of clusters, the connection is in the
entry of every cluster of the list. -/
theorem foldl_addEdsCon_self (conID c : String) (l : List String) :
    c ∈ l → ∀ idx : EdsIndex,
      conID ∈ edsLookup (l.foldl (fun i cl => addEdsCon cl conID i) idx) c := by
  induction l with
  | nil => intro hc; cases hc
  | cons a tl ih =>
    intro hc idx
    rcases List.mem_cons.mp hc with h | h
    · subst h
      exact foldl_addEdsCon_mono conID tl _ c conID (edsLookup_addEdsCon_self c conID idx)
    · exact ih h (addEdsCon a conID idx)

/-- Removing a connection from a cluster's entry takes it out of that entry. -/
theorem edsLookup_removeEdsCon_self (cluster conID : String) (idx : EdsIndex) :
    conID ∉ edsLookup (removeEdsCon cluster conID idx) cluster := by
  induction idx with
  | nil => simp [removeEdsCon, edsLookup]
  | cons hd tl ih =>
    obtain ⟨k, cs⟩ := hd
    by_cases hk : k = cluster
    · subst hk
      simp [removeEdsCon, edsLookup, List.mem_filter]
    · simp [removeEdsCon, edsLookup, hk, ih]

/-- Removal never adds anybody to any entry. -/
theorem edsLookup_removeEdsCon_sub (cluster conID c x : String) (idx : EdsIndex)
    (hx : x ∈ edsLookup (removeEdsCon cluster conID idx) c) : x ∈ edsLookup idx c := by
  induction idx with
  | nil => exact hx
  | cons hd tl ih =>
    obtain ⟨k, cs⟩ := hd
    by_cases hk : k = cluster
    · subst hk
      by_cases hc : k = c
      · subst hc
        simp_all [removeEdsCon, edsLookup, List.mem_filter]
      · simp_all [removeEdsCon, edsLookup]
    · by_cases hc : k = c <;> simp_all [removeEdsCon, edsLookup]

/-- Absence from an entry survives a fold of removals. -/
theorem foldl_removeEdsCon_absent (conID : String) (l : List String) (idx : EdsIndex)
    (c : String) (h : conID ∉ edsLookup idx c) :
    conID ∉ edsLookup (l.foldl (fun i cl => removeEdsCon cl conID i) idx) c := by
  induction l generalizing idx with
  | nil => exact h
  | cons a tl ih =>
    apply ih
    intro hmem
    exact h (edsLookup_removeEdsCon_sub a conID c conID idx hmem)

/-- After folding removals over a list of clusters, the connection is absent
from the entry of every cluster of the list. -/
theorem foldl_removeEdsCon_self (conID c : String) (l : List String) :
    c ∈ l → ∀ idx : EdsIndex,
      conID ∉ edsLookup (l.foldl (fun i cl => removeEdsCon cl conID i) idx) c := by
  induction l with
  | nil => intro hc; cases hc
  | cons a tl ih =>
    intro hc idx
    rcases List.mem_cons.mp hc with h | h
    · subst h
      exact foldl_removeEdsCon_absent conID tl _ c (edsLookup_removeEdsCon_self c conID idx)
    · exact ih h (removeEdsCon a conID idx)

/-- C1 counterexample: a connection watches clusters a and b, then sends an EDS
request for a alone. The request is processed (lengths differ), b leaves the
watch list, yet the connection is still in the EDS index entry for b - the
removal half of the claimed symmetry fails on the code, which never removes
dropped clusters on an EDS request. -/
theorem c1_dropped_cluster_not_removed :
    "b" ∉ (handleEds ["a"] (handleEds ["a", "b"] (freshCon "con1") []).1
      (handleEds ["a", "b"] (freshCon "con1") []).2.1).1.Clusters ∧
    "con1" ∈ edsLookup (handleEds ["a"] (handleEds ["a", "b"] (freshCon "con1") []).1
      (handleEds ["a", "b"] (freshCon "con1") []).2.1).2.1 "b" := by
  decide

/-- C1 (amended): the membership direction of the invariant holds - after any
EDS request step, every cluster in the connection's watch list has the
connection in its EDS index entry - and teardown removes the connection from
the entry of every cluster in its current watch list. Clusters dropped by an
earlier EDS request, however, keep the connection in their entries (see the
counterexample). -/
theorem c1_eds_index_membership (names : List String) (con : XdsConnection)
    (idx : EdsIndex) (hinv : edsInvariant con idx) :
    edsInvariant (handleEds names con idx).1 (handleEds names con idx).2.1 ∧
    (∀ c ∈ con.Clusters, con.ConID ∉ edsLookup (removeConEds con idx) c) := by
  constructor
  · unfold handleEds
    split
    · exact hinv
    · unfold edsInvariant
      intro c hc
      exact foldl_addEdsCon_self con.ConID c names hc idx
  · intro c hc
    exact foldl_removeEdsCon_self con.ConID c con.Clusters hc idx

/-- C1 witness: the amended theorem applied at a concrete connection watching
cluster x, indexed accordingly, receiving an EDS request for y and z. -/
theorem c1_eds_index_membership_witness :
    edsInvariant { freshCon "c" with Clusters := ["x"] } [("x", ["c"])] ∧
    (edsInvariant
      (handleEds ["y", "z"] { freshCon "c" with Clusters := ["x"] } [("x", ["c"])]).1
      (handleEds ["y", "z"] { freshCon "c" with Clusters := ["x"] } [("x", ["c"])]).2.1 ∧
    (∀ c ∈ ({ freshCon "c" with Clusters := ["x"] } : XdsConnection).Clusters,
      ({ freshCon "c" with Clusters := ["x"] } : XdsConnection).ConID ∉
        edsLookup (removeConEds { freshCon "c" with Clusters := ["x"] } [("x", ["c"])]) c)) :=
  ⟨by decide, c1_eds_index_membership ["y", "z"] _ _ (by decide)⟩

/-- C2 counterexample: a connection watching cluster a receives an EDS request
for cluster b - one element changed, same cardinality. The claim promises
exactly one push with the new set; the code treats the request as an ACK:
zero pushes and the watch list still holds a. -/
theorem c2_content_change_is_acked :
    (handleEds ["b"] { freshCon "con1" with Clusters := ["a"] } []).2.2 = 0 ∧
    (handleEds ["b"] { freshCon "con1" with Clusters := ["a"] } []).1.Clusters = ["a"] := by
  decide

/-- C2 (amended): with an established nonempty EDS watch, repeating the same
request gives zero pushes and no state change (idempotence holds); in fact any
request whose resource_names has the same length is an ACK, whatever its
contents; and a request with a nonempty list of a different length gives
exactly one push with the new set. -/
theorem c2_eds_push_counting (con : XdsConnection) (idx : EdsIndex)
    (hne : con.Clusters ≠ []) :
    handleEds con.Clusters con idx = (con, idx, 0) ∧
    (∀ names : List String, names.length = con.Clusters.length →
      handleEds names con idx = (con, idx, 0)) ∧
    (∀ names : List String, names ≠ [] → names.length ≠ con.Clusters.length →
      (handleEds names con idx).1.Clusters = names ∧
      (handleEds names con idx).2.2 = 1) := by
  have hpos : 0 < con.Clusters.length := List.length_pos.mpr hne
  refine ⟨?_, ?_, ?_⟩
  · simp [handleEds, hpos]
  · intro names hlen
    simp [handleEds, hlen, hpos]
  · intro names hn hlen
    have hnz : names.length ≠ 0 := fun h => hn (List.length_eq_zero.mp h)
    simp [handleEds, hlen, hn, hnz]

/-- C2 witness: the counting theorem applied at a connection watching one
concrete cluster. -/
theorem c2_eds_push_counting_witness :
    ({ freshCon "c" with Clusters := ["a"] } : XdsConnection).Clusters ≠ [] ∧
    (handleEds ({ freshCon "c" with Clusters := ["a"] } : XdsConnection).Clusters
        { freshCon "c" with Clusters := ["a"] } [] =
      ({ freshCon "c" with Clusters := ["a"] }, [], 0) ∧
    (∀ names : List String,
      names.length = ({ freshCon "c" with Clusters := ["a"] } : XdsConnection).Clusters.length →
      handleEds names { freshCon "c" with Clusters := ["a"] } [] =
        ({ freshCon "c" with Clusters := ["a"] }, [], 0)) ∧
    (∀ names : List String, names ≠ [] →
      names.length ≠ ({ freshCon "c" with Clusters := ["a"] } : XdsConnection).Clusters.length →
      (handleEds names { freshCon "c" with Clusters := ["a"] } []).1.Clusters = names ∧
      (handleEds names { freshCon "c" with Clusters := ["a"] } []).2.2 = 1)) :=
  ⟨by decide, c2_eds_push_counting { freshCon "c" with Clusters := ["a"] } [] (by decide)⟩

/-- When every send succeeds, the push-event loop attempts exactly the watched
types, in order, and does not terminate the stream. -/
theorem sendAll_allOk (ok : XdsType → Bool) (l : List XdsType)
    (h : ∀ t ∈ l, ok t = true) : sendAll ok l = (l, false) := by
  induction l with
  | nil => rfl
  | cons a tl ih =>
    have ha : ok a = true := h a (List.mem_cons_self a tl)
    have htl := ih (fun t ht => h t (List.mem_cons_of_mem a ht))
    simp [sendAll, ha, htl]

/-- A failing send anywhere in the attempted list terminates the loop. -/
theorem sendAll_err (ok : XdsType → Bool) (l : List XdsType) (t : XdsType)
    (ht : t ∈ l) (hf : ok t = false) : (sendAll ok l).2 = true := by
  induction l with
  | nil => cases ht
  | cons a tl ih =>
    cases ha : ok a with
    | true =>
      rcases List.mem_cons.mp ht with rfl | htl
      · simp [ha] at hf
      · simp [sendAll, ha, ih htl]
    | false => simp [sendAll, ha]

/-- Membership in the watched-type list characterized by the four watch fields. -/
theorem mem_watchedTypes (con : XdsConnection) (t : XdsType) :
    t ∈ watchedTypes con ↔
      (t = .CDS ∧ con.CDSWatch = true) ∨ (t = .RDS ∧ con.Routes ≠ []) ∨
      (t = .EDS ∧ con.Clusters ≠ []) ∨ (t = .LDS ∧ con.LDSWatch = true) := by
  unfold watchedTypes
  by_cases hR : 0 < con.Routes.length <;> by_cases hE : 0 < con.Clusters.length <;>
    cases hC : con.CDSWatch <;> cases hL : con.LDSWatch <;>
    cases t <;> simp_all [List.length_pos]

/-- C3: on a push-channel signal, with every send succeeding the stream sends
exactly the currently watched resource types - CDS iff watched, RDS iff the
route list is nonempty, EDS iff the cluster list is nonempty, LDS iff watched,
each at most once, as a sublist of the order CDS, RDS, EDS, LDS - and a send
failure on any attempted type terminates the stream. -/
theorem c3_push_round (con : XdsConnection) (ok : XdsType → Bool) :
    ((∀ t, ok t = true) → handlePushEvent con ok = (watchedTypes con, false)) ∧
    (XdsType.CDS ∈ watchedTypes con ↔ con.CDSWatch = true) ∧
    (XdsType.RDS ∈ watchedTypes con ↔ con.Routes ≠ []) ∧
    (XdsType.EDS ∈ watchedTypes con ↔ con.Clusters ≠ []) ∧
    (XdsType.LDS ∈ watchedTypes con ↔ con.LDSWatch = true) ∧
    (watchedTypes con).Nodup ∧
    (watchedTypes con).Sublist [XdsType.CDS, XdsType.RDS, XdsType.EDS, XdsType.LDS] ∧
    (∀ t ∈ watchedTypes con, ok t = false → (handlePushEvent con ok).2 = true) := by
  refine ⟨?_, ?_, ?_, ?_, ?_, ?_, ?_, ?_⟩
  · intro h
    exact sendAll_allOk ok (watchedTypes con) (fun t _ => h t)
  · simp [mem_watchedTypes]
  · simp [mem_watchedTypes]
  · simp [mem_watchedTypes]
  · simp [mem_watchedTypes]
  · unfold watchedTypes
    by_cases hR : 0 < con.Routes.length <;> by_cases hE : 0 < con.Clusters.length <;>
      cases hC : con.CDSWatch <;> cases hL : con.LDSWatch <;> simp_all
  · unfold watchedTypes
    by_cases hR : 0 < con.Routes.length <;> by_cases hE : 0 < con.Clusters.length <;>
      cases hC : con.CDSWatch <;> cases hL : con.LDSWatch <;> simp_all
  · intro t ht hf
    exact sendAll_err ok (watchedTypes con) t ht hf

/-- C3 witness: a connection watching everything (CDS, LDS, routes 80,
cluster outbound-80-a.ns), with all sends succeeding, pushes one response per
type in the order CDS, RDS, EDS, LDS; and with a failing EDS send the stream
terminates. -/
theorem c3_push_round_witness :
    ((∀ t, allOk t = true) → handlePushEvent c3Con allOk = (watchedTypes c3Con, false)) ∧
    (XdsType.CDS ∈ watchedTypes c3Con ↔ c3Con.CDSWatch = true) ∧
    (XdsType.RDS ∈ watchedTypes c3Con ↔ c3Con.Routes ≠ []) ∧
    (XdsType.EDS ∈ watchedTypes c3Con ↔ c3Con.Clusters ≠ []) ∧
    (XdsType.LDS ∈ watchedTypes c3Con ↔ c3Con.LDSWatch = true) ∧
    (watchedTypes c3Con).Nodup ∧
    (watchedTypes c3Con).Sublist [XdsType.CDS, XdsType.RDS, XdsType.EDS, XdsType.LDS] ∧
    (∀ t ∈ watchedTypes c3Con, allOk t = false → (handlePushEvent c3Con allOk).2 = true) :=
  c3_push_round c3Con allOk


/-- The connection-side effect of a push step does not depend on the counter
state. -/
theorem pushStep_fst_stats (now : Nat) (o : PushOutcome) (c : ConnTimes)
    (st st' : PushStats) : (pushStep now o c st).1 = (pushStep now o c st').1 := by
  cases o
  · rfl
  · rfl
  · simp only [pushStep]
    split_ifs <;> rfl

/-- Mapping the connection-side effect is also independent of the counter
state. -/
theorem map_pushStep_stats (now : Nat) (f : ConnTimes → PushOutcome)
    (l : List ConnTimes) (st st' : PushStats) :
    l.map (fun x => (pushStep now (f x) x st).1) =
      l.map (fun x => (pushStep now (f x) x st').1) := by
  induction l with
  | nil => rfl
  | cons a tl ih => simp [pushStep_fst_stats now (f a) a st st', ih]

/-- The broadcast loop visits every connection of the snapshot and updates each
one exactly as its own push step dictates, whatever happened to the others. -/
theorem adsPushAllLoop_visits_all (now : Nat) (f : ConnTimes → PushOutcome)
    (conns : List ConnTimes) (stats : PushStats) :
    (adsPushAllLoop now f conns stats).1 =
      conns.map (fun x => (pushStep now (f x) x stats).1) := by
  induction conns generalizing stats with
  | nil => rfl
  | cons a tl ih =>
    simp only [adsPushAllLoop, List.map_cons]
    refine congrArg _ ?_
    rw [ih (pushStep now (f a) a stats).2]
    exact map_pushStep_stats now f tl _ stats

/-- C4: per-connection broadcast accounting. A successful push-channel signal
sets last-push to now and clears last-push-failure; a fired done channel leaves
connection and counters untouched; a deadline increments the push-timeout
counter, and when last-push-failure was zero it is set to now with the short
push-error counter incremented, while a long push-error can be recorded only if
at least ten seconds elapsed since last-push-failure; and the loop processes
every connection of the snapshot regardless of the outcomes. -/
theorem c4_broadcast_accounting (now : Nat) (c0 : ConnTimes) (st0 : PushStats)
    (cz : ConnTimes) (stz : PushStats) (hz : cz.LastPushFailure = 0)
    (cn : ConnTimes) (stn : PushStats) (hnz : cn.LastPushFailure ≠ 0) :
    pushStep now .success c0 st0 = ({ c0 with LastPush := now, LastPushFailure := 0 }, st0) ∧
    pushStep now .done c0 st0 = (c0, st0) ∧
    (pushStep now .timeout c0 st0).2.pushTimeouts = st0.pushTimeouts + 1 ∧
    pushStep now .timeout cz stz =
      ({ cz with LastPushFailure := now },
       { pushTimeouts := stz.pushTimeouts + 1, shortErrors := stz.shortErrors + 1,
         longErrors := stz.longErrors }) ∧
    ((pushStep now .timeout cn stn).2.longErrors ≠ stn.longErrors →
      10 ≤ now - cn.LastPushFailure) ∧
    (pushStep now .timeout cn stn).1 = cn ∧
    (∀ (f : ConnTimes → PushOutcome) (conns : List ConnTimes) (stats : PushStats),
      (adsPushAllLoop now f conns stats).1 =
        conns.map (fun x => (pushStep now (f x) x stats).1)) := by
  refine ⟨rfl, rfl, ?_, ?_, ?_, ?_, ?_⟩
  · simp only [pushStep]
    split_ifs <;> rfl
  · simp only [pushStep, if_pos hz]
  · intro hlong
    simp only [pushStep, if_neg hnz] at hlong
    by_cases h10 : 10 < now - cn.LastPushFailure
    · omega
    · rw [if_neg h10] at hlong
      simp at hlong
  · simp only [pushStep, if_neg hnz]
    split_ifs <;> rfl
  · exact adsPushAllLoop_visits_all now

/-- C4 witness: the accounting theorem applied at a concrete time (20s), a
generic connection, one with a zero failure timestamp, and one that failed at
5s. -/
theorem c4_broadcast_accounting_witness :
    (⟨1, 0⟩ : ConnTimes).LastPushFailure = 0 ∧ (⟨0, 5⟩ : ConnTimes).LastPushFailure ≠ 0 ∧
    (pushStep 20 .success ⟨1, 2⟩ ⟨3, 4, 5⟩ =
      ({ (⟨1, 2⟩ : ConnTimes) with LastPush := 20, LastPushFailure := 0 }, ⟨3, 4, 5⟩) ∧
    pushStep 20 .done ⟨1, 2⟩ ⟨3, 4, 5⟩ = (⟨1, 2⟩, ⟨3, 4, 5⟩) ∧
    (pushStep 20 .timeout ⟨1, 2⟩ ⟨3, 4, 5⟩).2.pushTimeouts = (⟨3, 4, 5⟩ : PushStats).pushTimeouts + 1 ∧
    pushStep 20 .timeout ⟨1, 0⟩ ⟨0, 0, 0⟩ =
      ({ (⟨1, 0⟩ : ConnTimes) with LastPushFailure := 20 },
       { pushTimeouts := (⟨0, 0, 0⟩ : PushStats).pushTimeouts + 1,
         shortErrors := (⟨0, 0, 0⟩ : PushStats).shortErrors + 1,
         longErrors := (⟨0, 0, 0⟩ : PushStats).longErrors }) ∧
    ((pushStep 20 .timeout ⟨0, 5⟩ ⟨0, 0, 0⟩).2.longErrors ≠ (⟨0, 0, 0⟩ : PushStats).longErrors →
      10 ≤ 20 - (⟨0, 5⟩ : ConnTimes).LastPushFailure) ∧
    (pushStep 20 .timeout ⟨0, 5⟩ ⟨0, 0, 0⟩).1 = ⟨0, 5⟩ ∧
    (∀ (f : ConnTimes → PushOutcome) (conns : List ConnTimes) (stats : PushStats),
      (adsPushAllLoop 20 f conns stats).1 =
        conns.map (fun x => (pushStep 20 (f x) x stats).1))) :=
  ⟨rfl, by decide, c4_broadcast_accounting 20 ⟨1, 2⟩ ⟨3, 4, 5⟩ ⟨1, 0⟩ ⟨0, 0, 0⟩ rfl
    ⟨0, 5⟩ ⟨0, 0, 0⟩ (by decide)⟩

/-- C5: for an inbound request, an empty node id makes the stream loop log and
skip the request (the loop continues); a nonempty node id that fails to parse
as type~ip~id~domain terminates the stream; a parseable id proceeds to
dispatch. -/
theorem c5_node_id_handling (s : String) (hne : s ≠ "")
    (hbad : parseServiceNode s = none) (t : String) (p : Proxy)
    (hp : parseServiceNode t = some p) :
    handleNodeId "" = .skip ∧
    handleNodeId s = .terminate ∧
    handleNodeId t = .dispatchWith p := by
  refine ⟨rfl, ?_, ?_⟩
  · simp [handleNodeId, hne, hbad]
  · have htne : t ≠ "" := by
      intro h
      subst h
      rw [show parseServiceNode "" = none from rfl] at hp
      cases hp
    simp [handleNodeId, htne, hp]

/-- C5 witness: the handling theorem applied at the malformed id bad-node-id
and at a well-formed sidecar id. -/
theorem c5_node_id_handling_witness :
    ("bad-node-id" : String) ≠ "" ∧ parseServiceNode "bad-node-id" = none ∧
    parseServiceNode "sidecar~10.0.0.5~app~cluster.local" =
      some { nodeType := .sidecar, IPAddress := "10.0.0.5", ID := "app",
             Domain := "cluster.local" } ∧
    (handleNodeId "" = .skip ∧
     handleNodeId "bad-node-id" = .terminate ∧
     handleNodeId "sidecar~10.0.0.5~app~cluster.local" =
       .dispatchWith { nodeType := .sidecar, IPAddress := "10.0.0.5", ID := "app",
                       Domain := "cluster.local" }) :=
  ⟨by decide, by decide, by decide,
   c5_node_id_handling "bad-node-id" (by decide) (by decide) _ _ (by decide)⟩

/-- C6: evaluation at the failing input. The mesh connect timeout is positive
(1s), but the destination rule of a.ns sets an explicit zero TCP connect
timeout; because the zero-timeout fixup loop of BuildClusters runs before the
inbound clusters are appended, the returned inbound cluster keeps connect
timeout zero, violating the claimed postcondition (the outbound cluster is
fixed up to the 5s default, the blackhole carries 5s). -/
theorem c6_zero_connect_timeout :
    ((BuildClusters c6Env sidecarProxy).map (fun c => (c.Name, c.ConnectTimeout)) =
      [("outbound|80||a.ns", 5000000000), ("inbound|80||a.ns", 0),
       ("BlackHoleCluster", 5000000000)]) ∧
    ¬ (∀ c ∈ BuildClusters c6Env sidecarProxy, 0 < c.ConnectTimeout) := by
  decide

/-- C7: evaluation at the failing input. For the external service foo.com on
port 80, the discovery type is strict-DNS as claimed (in both the v1 builder
and the v1alpha3 convertResolution), and no EDS config is produced for a
strict-DNS cluster; but the embedded host is tcp://foo.com:%d80, not the
claimed tcp://foo.com:80, because joinIPPort formats the port with fmt.Sprint
instead of fmt.Sprintf and the %d directive is never interpreted. -/
theorem c7_external_dns_cluster :
    joinIPPort "foo.com" 80 = "foo.com:%d80" ∧
    (BuildOutboundCluster "foo.com" s1Port true).ctype = "strict_dns" ∧
    convertResolution .DNSLB = .StrictDNS ∧
    (updateEds (buildDefaultCluster emptyEnv "outbound|80||foo.com"
      (convertResolution .DNSLB) [])).EdsServiceName = none ∧
    (BuildOutboundCluster "foo.com" s1Port true).Hosts = ["tcp://foo.com:%d80"] ∧
    (BuildOutboundCluster "foo.com" s1Port true).Hosts ≠ ["tcp://foo.com:80"] := by
  decide

/-- C8: outbound listener conflict policy, for any pair of protocols of which
the first is HTTP-class and the second TCP-class (or the other way round). Two
single-port services on the same wildcard port 80 key - processed in hostname
order, the TCP one with passthrough resolution so that it binds the wildcard -
produce one conflict count and the listener map of the first service alone:
the first listener wins and the second is skipped. -/
theorem c8_outbound_listener_conflict (p1 p2 : Protocol)
    (h1 : modelProtocolToListenerType p1 = .http)
    (h2 : modelProtocolToListenerType p2 = .tcp) :
    ((buildSidecarOutboundListeners
        [c8Service "a.example" p1 .ClientSideLB,
         c8Service "b.example" p2 .Passthrough]).conflictCount = 1 ∧
     (buildSidecarOutboundListeners
        [c8Service "a.example" p1 .ClientSideLB,
         c8Service "b.example" p2 .Passthrough]).listenerMap =
       (buildSidecarOutboundListeners [c8Service "a.example" p1 .ClientSideLB]).listenerMap) ∧
    ((buildSidecarOutboundListeners
        [c8Service "a.example" p2 .Passthrough,
         c8Service "b.example" p1 .ClientSideLB]).conflictCount = 1 ∧
     (buildSidecarOutboundListeners
        [c8Service "a.example" p2 .Passthrough,
         c8Service "b.example" p1 .ClientSideLB]).listenerMap =
       (buildSidecarOutboundListeners [c8Service "a.example" p2 .Passthrough]).listenerMap) := by
  revert h1 h2
  revert p2
  revert p1
  decide

/-- C8 witness: the conflict theorem applied at the scenario S3 protocols,
HTTP first and TCP second, and the reverse. -/
theorem c8_outbound_listener_conflict_witness :
    modelProtocolToListenerType .HTTP = .http ∧
    modelProtocolToListenerType .TCP = .tcp ∧
    (((buildSidecarOutboundListeners
        [c8Service "a.example" .HTTP .ClientSideLB,
         c8Service "b.example" .TCP .Passthrough]).conflictCount = 1 ∧
     (buildSidecarOutboundListeners
        [c8Service "a.example" .HTTP .ClientSideLB,
         c8Service "b.example" .TCP .Passthrough]).listenerMap =
       (buildSidecarOutboundListeners [c8Service "a.example" .HTTP .ClientSideLB]).listenerMap) ∧
    ((buildSidecarOutboundListeners
        [c8Service "a.example" .TCP .Passthrough,
         c8Service "b.example" .HTTP .ClientSideLB]).conflictCount = 1 ∧
     (buildSidecarOutboundListeners
        [c8Service "a.example" .TCP .Passthrough,
         c8Service "b.example" .HTTP .ClientSideLB]).listenerMap =
       (buildSidecarOutboundListeners [c8Service "a.example" .TCP .Passthrough]).listenerMap)) :=
  ⟨rfl, rfl, c8_outbound_listener_conflict .HTTP .TCP rfl rfl⟩

/-- Whatever branch of the dispatch switch produces a fallthrough result, the
connection keeps its id and its added flag. -/
theorem dispatch_preserves (req : DiscoveryRequest) (con : XdsConnection)
    (idx : EdsIndex) :
    ∀ r ∈ dispatch req con idx, r.1.added = con.added ∧ r.1.ConID = con.ConID := by
  intro r hr
  simp only [dispatch, handleRds, handleEds] at hr
  split_ifs at hr <;> simp_all
  all_goals (subst hr; exact ⟨rfl, rfl⟩)

/-- C9 counterexample: a fresh, unregistered connection receives a first
request whose type URL is none of the four recognized ones. The claim says such
a request is only logged and does not by itself register the connection; the
code reaches the registration block anyway and registers it. -/
theorem c9_unknown_type_url_registers :
    (processRequest c9Req (freshCon "con1") [] []).2.2.1 = ["con1"] ∧
    (processRequest c9Req (freshCon "con1") [] []).1.added = true ∧
    c9Req.typeUrl ≠ ClusterType ∧ c9Req.typeUrl ≠ ListenerType ∧
    c9Req.typeUrl ≠ RouteType ∧ c9Req.typeUrl ≠ EndpointType := by
  decide

/-- C9 (amended): a connection is registered upon the first request that falls
through the dispatch switch - a request consumed as an ACK registers nothing,
any dispatched request registers a not-yet-added connection, and a request
with an unrecognized type URL changes no watch state and triggers no push but
does fall through and therefore does register the connection. -/
theorem c9_registration (req : DiscoveryRequest) (con : XdsConnection)
    (idx : EdsIndex) (reg : Registry) (hadd : con.added = false) :
    (dispatch req con idx = none → processRequest req con idx reg = (con, idx, reg, [])) ∧
    (∀ (con' : XdsConnection) (idx' : EdsIndex) (sent : List XdsType),
      dispatch req con idx = some (con', idx', sent) →
      (processRequest req con idx reg).1.added = true ∧
      (processRequest req con idx reg).2.2.1 = con.ConID :: reg) ∧
    (req.typeUrl ≠ ClusterType → req.typeUrl ≠ ListenerType → req.typeUrl ≠ RouteType →
      req.typeUrl ≠ EndpointType → dispatch req con idx = some (con, idx, [])) := by
  refine ⟨?_, ?_, ?_⟩
  · intro h
    simp [processRequest, h]
  · intro con' idx' sent h
    have hpres := dispatch_preserves req con idx (con', idx', sent) (by simp [h])
    have hadded : con'.added = false := by rw [hpres.1, hadd]
    have hcid : con'.ConID = con.ConID := hpres.2
    simp [processRequest, h, hadded, hcid]
  · intro h1 h2 h3 h4
    simp [dispatch, h1, h2, h3, h4]

/-- C9 witness: the registration theorem applied at a fresh connection and the
unrecognized-type-URL request. -/
theorem c9_registration_witness :
    (freshCon "con1").added = false ∧
    ((dispatch c9Req (freshCon "con1") [] = none →
       processRequest c9Req (freshCon "con1") [] [] = (freshCon "con1", [], [], [])) ∧
     (∀ (con' : XdsConnection) (idx' : EdsIndex) (sent : List XdsType),
       dispatch c9Req (freshCon "con1") [] = some (con', idx', sent) →
       (processRequest c9Req (freshCon "con1") [] []).1.added = true ∧
       (processRequest c9Req (freshCon "con1") [] []).2.2.1 = (freshCon "con1").ConID :: []) ∧
     (c9Req.typeUrl ≠ ClusterType → c9Req.typeUrl ≠ ListenerType →
       c9Req.typeUrl ≠ RouteType → c9Req.typeUrl ≠ EndpointType →
       dispatch c9Req (freshCon "con1") [] = some (freshCon "con1", [], []))) :=
  ⟨rfl, c9_registration c9Req (freshCon "con1") [] [] rfl⟩

/-- C10: when the mesh intercept port is not positive, a sidecar gets no
inbound, outbound, management or virtual listener from buildSidecarListeners;
the result is exactly the HTTP proxy listener when the mesh HTTP proxy port is
positive, and empty otherwise. -/
theorem c10_intercept_port_gating (env : Environment) (node : Proxy)
    (h : env.Mesh.ProxyListenPort ≤ 0) :
    buildSidecarListeners env node =
      (if 0 < env.Mesh.ProxyHttpPort then [buildHttpProxyListener env.Mesh node] else []) := by
  unfold buildSidecarListeners
  rw [if_neg (not_lt.mpr h)]
  simp

/-- C10 witness: the gating theorem applied at an environment with the
intercept port disabled and the HTTP proxy port set to 15002, in the presence
of services, instances and management ports. -/
theorem c10_intercept_port_gating_witness :
    c10Env.Mesh.ProxyListenPort ≤ 0 ∧
    buildSidecarListeners c10Env sidecarProxy =
      (if 0 < c10Env.Mesh.ProxyHttpPort then [buildHttpProxyListener c10Env.Mesh sidecarProxy]
       else []) :=
  ⟨by decide, c10_intercept_port_gating c10Env sidecarProxy (by decide)⟩
